import Mathlib

/-!
Shallow embedding of the aws-samples/message-bus-bridge engine
(mqhandler.py, wshandler.py, mq2wsbridge.py, metricshandler.py) and proofs
about the spec's claims.  Pure computations (JWT construction, base64url,
HMAC-SHA256, message properties) are embedded as Lean functions; the
stateful loops (connect retry, publish retry, consume callback, startup
poll, stub send) are embedded as explicit state-passing functions whose
external events (connect outcomes, publish outcomes, received frames) are
explicit arguments.
-/

/-- JSON values produced by the repository's `json.dumps` calls: the JWT
header and payload dictionaries only ever hold strings and integers. -/
inductive JVal where
  | jstr (s : String)
  | jint (n : Int)
deriving DecidableEq, Repr

/-- Escaping performed by Python `json.dumps` on the string values used in
this repository: backslash and double quote get a backslash.  (The claims
only ever serialize plain printable ASCII without control characters, for
which this is exactly `json.dumps`.) -/
def jsonEscape (s : String) : String :=
  String.mk (s.data.foldr
    (fun c acc =>
      if c = '\\' then '\\' :: '\\' :: acc
      else if c = '"' then '\\' :: '"' :: acc
      else c :: acc) [])

/-- A JSON string literal with quotes, as `json.dumps` emits it. -/
def jsonStr (s : String) : String := "\"" ++ jsonEscape s ++ "\""

/-- Serialization of a single JSON value (`json.dumps` of a str or int). -/
def JVal.dump : JVal → String
  | .jstr s => jsonStr s
  | .jint n => toString n

/-- Python `json.dumps` of a dict, given the dict's items in iteration
order.  Default separators are a comma-space between items and a
colon-space inside an item. -/
def jsonDumps (l : List (String × JVal)) : String :=
  "\x7b" ++ String.intercalate ", "
    (l.map (fun kv => jsonStr kv.1 ++ ": " ++ kv.2.dump)) ++ "\x7d"

/-- UTF-8 bytes of a string.  All strings handled by the claims are ASCII,
for which the UTF-8 bytes are exactly the code points (this mirrors
Python's `str.encode()`). -/
def strBytes (s : String) : List Nat := s.data.map Char.toNat

/-- Alphabet of `base64.urlsafe_b64encode`. -/
def b64Alphabet : List Char :=
  "ABCDEFGHIJKLMNOPQRSTUVWXYZabcdefghijklmnopqrstuvwxyz0123456789-_".data

/-- Character for one 6-bit group. -/
def b64Char (n : Nat) : Char := b64Alphabet.getD n 'A'

/-- Base64url encoding of a byte list, with the `=` padding already
stripped (wshandler.b64encode strips it with `.replace`). -/
def b64Chunks : List Nat → List Char
  | b1 :: b2 :: b3 :: rest =>
      b64Char (b1 / 4) :: b64Char (b1 % 4 * 16 + b2 / 16) ::
      b64Char (b2 % 16 * 4 + b3 / 64) :: b64Char (b3 % 64) :: b64Chunks rest
  | [b1, b2] => [b64Char (b1 / 4), b64Char (b1 % 4 * 16 + b2 / 16), b64Char (b2 % 16 * 4)]
  | [b1] => [b64Char (b1 / 4), b64Char (b1 % 4 * 16)]
  | [] => []

/-- Base64url-encode raw bytes without padding. -/
def b64encodeBytes (bs : List Nat) : String := String.mk (b64Chunks bs)

/-- Embeds `WSHandler.b64encode` (wshandler.py:84-87) applied to a str argument:
encode to UTF-8, urlsafe-base64, strip `=`. -/
def b64encode (s : String) : String := b64encodeBytes (strBytes s)

/-- Python `binascii.unhexlify`: decimal value of one hex digit character. -/
def hexDigit (c : Char) : Nat :=
  if '0' ≤ c ∧ c ≤ '9' then c.toNat - 48
  else if 'a' ≤ c ∧ c ≤ 'f' then c.toNat - 87
  else if 'A' ≤ c ∧ c ≤ 'F' then c.toNat - 55
  else 0

/-- Python `binascii.unhexlify` on the character list of a hex string. -/
def unhexChars : List Char → List Nat
  | c1 :: c2 :: rest => (hexDigit c1 * 16 + hexDigit c2) :: unhexChars rest
  | _ => []

/-- Embeds `binascii.unhexlify(client_secret)` (wshandler.py:61). -/
def unhexlify (s : String) : List Nat := unhexChars s.data

/-- Dictionary lookup on an item list (first match), the semantics of a
Python dict with unique keys. -/
def alookup {β : Type} (k : String) : List (String × β) → Option β
  | [] => none
  | kv :: rest => if kv.1 = k then some kv.2 else alookup k rest

/-! SHA-256 (FIPS 180-4) over byte lists, with 32-bit words as Nat reduced
mod 2 ^ 32.  Needed because `WSHandler.generate_signature` computes
`hmac.new(key_secret, payload, hashlib.sha256)`. -/

/-- 2 ^ 32, the word modulus. -/
def w32 : Nat := 4294967296

/-- 32-bit addition. -/
def add32 (a b : Nat) : Nat := (a + b) % w32

/-- Rotate a 32-bit word right by s bits (0 < s < 32, input < 2 ^ 32). -/
def rotr32 (s x : Nat) : Nat := x / 2 ^ s + x % 2 ^ s * 2 ^ (32 - s)

/-- Logical right shift of a 32-bit word. -/
def shr32 (s x : Nat) : Nat := x / 2 ^ s

/-- Three-way xor. -/
def xor3 (a b c : Nat) : Nat := Nat.xor (Nat.xor a b) c

/-- SHA-256 big sigma 0. -/
def bsig0 (x : Nat) : Nat := xor3 (rotr32 2 x) (rotr32 13 x) (rotr32 22 x)

/-- SHA-256 big sigma 1. -/
def bsig1 (x : Nat) : Nat := xor3 (rotr32 6 x) (rotr32 11 x) (rotr32 25 x)

/-- SHA-256 small sigma 0. -/
def ssig0 (x : Nat) : Nat := xor3 (rotr32 7 x) (rotr32 18 x) (shr32 3 x)

/-- SHA-256 small sigma 1. -/
def ssig1 (x : Nat) : Nat := xor3 (rotr32 17 x) (rotr32 19 x) (shr32 10 x)

/-- SHA-256 choice function: (x and y) xor (not x and z). -/
def shaCh (x y z : Nat) : Nat :=
  Nat.xor (Nat.land x y) (Nat.land (Nat.xor x (w32 - 1)) z)

/-- SHA-256 majority function. -/
def shaMaj (x y z : Nat) : Nat :=
  Nat.xor (Nat.xor (Nat.land x y) (Nat.land x z)) (Nat.land y z)

/-- The 64 SHA-256 round constants. -/
def shaK : List Nat :=
  [1116352408, 1899447441, 3049323471, 3921009573, 961987163,
   1508970993, 2453635748, 2870763221, 3624381080, 310598401,
   607225278, 1426881987, 1925078388, 2162078206, 2614888103,
   3248222580, 3835390401, 4022224774, 264347078, 604807628,
   770255983, 1249150122, 1555081692, 1996064986, 2554220882,
   2821834349, 2952996808, 3210313671, 3336571891, 3584528711,
   113926993, 338241895, 666307205, 773529912, 1294757372,
   1396182291, 1695183700, 1986661051, 2177026350, 2456956037,
   2730485921, 2820302411, 3259730800, 3345764771, 3516065817,
   3600352804, 4094571909, 275423344, 430227734, 506948616,
   659060556, 883997877, 958139571, 1322822218, 1537002063,
   1747873779, 1955562222, 2024104815, 2227730452, 2361852424,
   2428436474, 2756734187, 3204031479, 3329325298]

/-- The SHA-256 initial hash value. -/
def shaH0 : List Nat :=
  [1779033703, 3144134277, 1013904242, 2773480762,
   1359893119, 2600822924, 528734635, 1541459225]

/-- Big-endian 8-byte encoding of the bit length. -/
def lenBE8 (n : Nat) : List Nat :=
  [n / 2 ^ 56 % 256, n / 2 ^ 48 % 256, n / 2 ^ 40 % 256, n / 2 ^ 32 % 256,
   n / 2 ^ 24 % 256, n / 2 ^ 16 % 256, n / 2 ^ 8 % 256, n % 256]

/-- SHA-256 message padding: append 0x80, zeros to 56 mod 64, then the
64-bit big-endian bit length. -/
def sha256Pad (msg : List Nat) : List Nat :=
  msg ++ 128 :: List.replicate ((119 - msg.length % 64) % 64) 0
      ++ lenBE8 (msg.length * 8)

/-- Pack bytes into big-endian 32-bit words. -/
def bytesToWords : List Nat → List Nat
  | a :: b :: c :: d :: rest => (((a * 256 + b) * 256 + c) * 256 + d) :: bytesToWords rest
  | _ => []

/-- Split a word list into 16-word blocks (fuel-driven; the caller passes
the list length as fuel). -/
def groupWords : Nat → List Nat → List (List Nat)
  | 0, _ => []
  | _, [] => []
  | f + 1, l => l.take 16 :: groupWords f (l.drop 16)

/-- Extend a 16-word block to the 64-word message schedule. -/
def scheduleW (block : List Nat) : Array Nat :=
  (List.range 48).foldl
    (fun w _ =>
      let t := w.size
      w.push (add32 (add32 (ssig1 (w.getD (t - 2) 0)) (w.getD (t - 7) 0))
                    (add32 (ssig0 (w.getD (t - 15) 0)) (w.getD (t - 16) 0))))
    block.toArray

/-- One SHA-256 compression round. -/
def shaRound (w : Array Nat)
    (st : Nat × Nat × Nat × Nat × Nat × Nat × Nat × Nat) (t : Nat) :
    Nat × Nat × Nat × Nat × Nat × Nat × Nat × Nat :=
  let (a, b, c, d, e, f, g, h) := st
  let t1 := add32 (add32 h (bsig1 e))
                  (add32 (shaCh e f g) (add32 (shaK.getD t 0) (w.getD t 0)))
  let t2 := add32 (bsig0 a) (shaMaj a b c)
  (add32 t1 t2, a, b, c, add32 d t1, e, f, g)

/-- SHA-256 compression of one 16-word block into the chaining state. -/
def shaCompress (hs : List Nat) (block : List Nat) : List Nat :=
  let w := scheduleW block
  match hs with
  | [h0, h1, h2, h3, h4, h5, h6, h7] =>
    let (a, b, c, d, e, f, g, h) :=
      (List.range 64).foldl (shaRound w) (h0, h1, h2, h3, h4, h5, h6, h7)
    [add32 h0 a, add32 h1 b, add32 h2 c, add32 h3 d,
     add32 h4 e, add32 h5 f, add32 h6 g, add32 h7 h]
  | other => other

/-- Big-endian bytes of one 32-bit word. -/
def wordBE4 (w : Nat) : List Nat :=
  [w / 2 ^ 24 % 256, w / 2 ^ 16 % 256, w / 2 ^ 8 % 256, w % 256]

/-- SHA-256 digest (32 bytes) of a byte list. -/
def sha256 (msg : List Nat) : List Nat :=
  let ws := bytesToWords (sha256Pad msg)
  ((groupWords ws.length ws).foldl shaCompress shaH0).foldr
    (fun w acc => wordBE4 w ++ acc) []

/-- HMAC-SHA256 (RFC 2104) over byte lists, the computation performed by
`hmac.new(key_secret, payload.encode(), hashlib.sha256)`. -/
def hmacSha256 (key msg : List Nat) : List Nat :=
  let k0 := if key.length > 64 then sha256 key else key
  let kp := k0 ++ List.replicate (64 - k0.length) 0
  sha256 (kp.map (fun b => Nat.xor b 92) ++
          sha256 (kp.map (fun b => Nat.xor b 54) ++ msg))


/-! Embedding of wshandler.py JWT construction.

Python builds the header and payload dicts as `dict(a.items() | b.items())`
(wshandler.py:94 and :113): the `|` is a set union of item pairs, and the
iteration order of that set - hence the key order of the resulting dict and
of its `json.dumps` serialization - is determined by CPython's string hash
seed, not by the arguments.  The embedding therefore takes the resulting
item order as an explicit list argument; theorems constrain it to be a
permutation of the concatenation of the two operands (which is exactly the
set of items when the keys are distinct). -/

/-- The literal `algo` dict of `WSHandler.generate_header` (wshandler.py:90-93). -/
def jwtHeaderItems : List (String × JVal) := [("alg", .jstr "HS256"), ("typ", .jstr "JWT")]

/-- Embeds `WSHandler.generate_header` (wshandler.py:89-95): serialize the header
dict, whose items in iteration order are `u`, and base64url it. -/
def generate_header (u : List (String × JVal)) : String := b64encode (jsonDumps u)

/-- The literal `jwt_payload` dict of `WSHandler.generate_payload`
(wshandler.py:100-112), with `time.time()` and `uuid.uuid4()` passed in as
`now` and `nonce`. -/
def payloadClaims (key_id path uri method : String) (now : Int) (nonce : String) :
    List (String × JVal) :=
  [("iss", .jstr key_id), ("kid", .jstr key_id), ("exp", .jint (now + 300)),
   ("nbf", .jint (now - 60)), ("iat", .jint (now - 60)), ("region", .jstr "ny"),
   ("method", .jstr method), ("path", .jstr path), ("host", .jstr uri),
   ("client_id", .jstr key_id), ("nonce", .jstr nonce)]

/-- Embeds `WSHandler.generate_payload` (wshandler.py:98-114): serialize the
payload dict, whose items in iteration order are `u`, and base64url it. -/
def generate_payload (u : List (String × JVal)) : String := b64encode (jsonDumps u)

/-- Embeds `WSHandler.generate_signature` (wshandler.py:117-120): base64url of the
HMAC-SHA256 of the signing input under the binary key secret. -/
def generate_signature (payload : String) (key_secret : List Nat) : String :=
  b64encodeBytes (hmacSha256 key_secret (strBytes payload))

/-- Embeds `WSHandler.generate_jwt` (wshandler.py:77-82), with the header and
payload dict item orders `uHeader` and `uPayload` made explicit. -/
def generate_jwt (key_secret : List Nat) (uHeader uPayload : List (String × JVal)) :
    String :=
  let jwt_header := generate_header uHeader ++ "." ++ generate_payload uPayload
  jwt_header ++ "." ++ generate_signature jwt_header key_secret

/-- The extra payload-params dict `{'connection_expiry': now + 300}` that
`WSHandler.generate_websocket_url` (wshandler.py:66-75) unions with the
caller's `jwt_params` before delegating to `generate_url`/`generate_jwt`. -/
def websocketJwtParams (now : Int) : List (String × JVal) :=
  [("connection_expiry", .jint (now + 300))]

/-! Embedding of mqhandler.py. -/

/-- The single broker operation performed on a delivered message by
`MQHandler.__call__`: nothing, an ack, or a reject with the given requeue
flag.  The callback performs at most one of these per invocation. -/
inductive MqAction where
  | nothing
  | ack
  | reject (requeue : Bool)
deriving DecidableEq, Repr

/-- Embeds `MQHandler.__call__` (mqhandler.py:163-186), the consume callback.
`channelSet` is the truthiness of `self.channel`, `running` is
`self.mq_running`, `forward` is the `mq_to_ws_method` reference and `body`
the delivered message body.  Returns the callback's return value and the
broker operation performed on the message. -/
def mq_call (channelSet running : Bool) (forward : String → Bool) (body : String) :
    Bool × MqAction :=
  if channelSet = false then (false, .nothing)
  else if running = false then (false, .reject true)
  else
    let success := forward body
    if success = true then (success, .ack) else (success, .reject true)

/-- Observable outcome of one `MQHandler.create_connection` run
(mqhandler.py:83-110): the backoff sleeps performed, the successive values
written to `metrics.count_mq_connection_attempts`, whether a connection
was obtained, and the final `mq_running` flag. -/
structure ConnectRun where
  sleeps : List Nat
  metricWrites : List Nat
  connected : Bool
  running : Bool
deriving DecidableEq, Repr

/-- Loop body of `MQHandler.create_connection`.  `outcomes` lists the
result of each successive `amqpstorm.UriConnection(self.mq_url)` call
(true = connection established, false = AMQPError); the run observes the
finite prefix given.  `attempts` is the counter value before the iteration;
the entry call has `attempts = 0` and `mq_running = True` (set by
`consume_messages`). -/
def create_connection_go (maxRetries : Nat) (attempts : Nat) :
    List Bool → ConnectRun
  | [] => ⟨[], [], false, true⟩
  | o :: rest =>
    let a := attempts + 1
    if o then ⟨[], [a], true, true⟩
    else if maxRetries ≠ 0 ∧ a > maxRetries then ⟨[], [a], false, false⟩
    else
      let r := create_connection_go maxRetries a rest
      ⟨min (a * 2) 30 :: r.sleeps, a :: r.metricWrites, r.connected, r.running⟩

/-- Embeds `MQHandler.create_connection` (mqhandler.py:83-110) starting from
`attempts = 0`. -/
def create_connection (maxRetries : Nat) (outcomes : List Bool) : ConnectRun :=
  create_connection_go maxRetries 0 outcomes

/-- The `properties` dict built by `MQHandler.send_message`
(mqhandler.py:132-136): content type and expiration, as literal strings. -/
def message_properties (ttl_from_ws : Nat) : List (String × String) :=
  [("content_type", "text/plain"), ("expiration", toString ttl_from_ws)]

/-- Retry loop of `MQHandler.send_message` (mqhandler.py:140-161).
`tagsOk` is the truthiness of `self.channel.consumer_tags`, `running` is
`self.mq_running` (both read afresh each iteration; modelled as fixed for
the duration of the call), `tries i` is the outcome of the i-th
`message.publish` call.  The first argument is the current `retry_count`,
the second the index of the next try.  Returns (value returned, number of
publish calls made, number of 1-second sleeps performed). -/
def send_go (tagsOk running : Bool) (maxRetries : Nat) (tries : Nat → Bool) :
    Nat → Nat → Bool × Nat × Nat
  | 0, _ => (false, 0, 0)
  | r + 1, i =>
    if (tagsOk = false ∨ running = false) ∧ r + 1 < maxRetries then (false, 0, 0)
    else if tries i then (true, 1, 0)
    else
      let (res, t, s) := send_go tagsOk running maxRetries tries r (i + 1)
      (res, t + 1, s + 1)

/-- Embeds `MQHandler.send_message` (mqhandler.py:122-161) with the initial
`retry_count = self.max_retries`.  (The initial durable queue declare and
`Message.create` are assumed not to raise; they are outside the retry
contract.) -/
def send_message (tagsOk running : Bool) (maxRetries : Nat) (tries : Nat → Bool) :
    Bool × Nat × Nat :=
  send_go tagsOk running maxRetries tries maxRetries 0

/-! Embedding of the wshandler.py run loop, stub send, and the
mq2wsbridge.py startup poll. -/

/-- Python value held by `WSHandler.ws_failed`: `None` initially, or a
reason string.  The extra boolean constructor represents the `True`/`False`
singletons so that the identity test `x is True` performed by main()
(mq2wsbridge.py:310) can be embedded faithfully. -/
inductive PyVal where
  | pyNone
  | pyBool (b : Bool)
  | pyStr (s : String)
deriving DecidableEq, Repr

/-- The Python identity test `x is True`: true exactly for the `True`
singleton; any string (and `None`) fails it. -/
def pyIsTrue : PyVal → Bool
  | .pyBool true => true
  | _ => false

/-- Reason string assigned by `WSHandler.on_close` (wshandler.py:163). -/
def onCloseFailReason : String :=
  "websocket appears to have failed to connect (unidentified by library)"

/-- Reason string assigned on attempt-budget exhaustion (wshandler.py:229). -/
def budgetFailReason : String :=
  "Exiting WebSocket forever loop because number of connect attempts exceeded"

/-- Shared state observed by main()'s startup poll (mq2wsbridge.py:299-321)
together with the supervisor-side effects it can perform. -/
structure BridgeState where
  mq_running : Bool
  ws_running : Bool
  ws_connected : Bool
  ws_failed : PyVal
  server_running : Bool
  sleeper_set : Bool
  successful_start : Nat
deriving DecidableEq, Repr

/-- Embeds `WSHandler.on_close` (wshandler.py:147-164): clear `ws_connected`; when
both `code` and `msg` are None, record the failure reason string in
`ws_failed`. -/
def on_close (st : BridgeState) (code msg : Option String) : BridgeState :=
  let st := { st with ws_connected := false }
  if code = none ∧ msg = none then { st with ws_failed := .pyStr onCloseFailReason }
  else st

/-- One iteration of the startup poll body (mq2wsbridge.py:309-321).
Returns the new state and whether the loop breaks. -/
def startup_poll_step (st : BridgeState) : BridgeState × Bool :=
  if pyIsTrue st.ws_failed then
    ({ st with server_running := false, sleeper_set := true, successful_start := 1 }, true)
  else if st.mq_running = true ∧ st.ws_running = true ∧ st.ws_connected = true then
    (st, true)
  else (st, false)

/-- The startup poll `for poll in range(60)` (mq2wsbridge.py:309-321),
iterated on a state that the worker threads do not change meanwhile. -/
def startup_poll : Nat → BridgeState → BridgeState
  | 0, st => st
  | n + 1, st =>
    let (st', brk) := startup_poll_step st
    if brk then st' else startup_poll n st'

/-- State of the stub WebSocket handler relevant to
`WSHandler.send_ws_message_stub` (wshandler.py:279-303): the two flags it
checks, the metrics toggle, the two counters it increments, and the
sequence of frames passed to `on_message_handler` so far. -/
structure WsStubState where
  ws_connected : Bool
  ws_running : Bool
  metrics_enabled : Bool
  count_to_ws : Nat
  count_from_ws : Nat
  delivered : List String
deriving DecidableEq, Repr

/-- The module constant `STUB_SEND_DELAY` (wshandler.py:28). -/
def STUB_SEND_DELAY : Nat := 0

/-- Embeds `WSHandler.send_ws_message_stub` (wshandler.py:279-303): when connected
and running, optionally sleep `STUB_SEND_DELAY` (no state effect), bump
both counters when metrics are enabled, invoke `on_message_handler(msg)`
(recorded by appending to `delivered`), and return True; otherwise leave
the state unchanged and return False. -/
def send_ws_message_stub (st : WsStubState) (msg : String) : WsStubState × Bool :=
  if st.ws_connected = true ∧ st.ws_running = true then
    let st :=
      if st.metrics_enabled then
        { st with count_to_ws := st.count_to_ws + 1,
                  count_from_ws := st.count_from_ws + 1 }
      else st
    ({ st with delivered := st.delivered ++ [msg] }, true)
  else (st, false)

/-- Sending a whole sequence of frames through the stub, in order. -/
def send_stub_all (st : WsStubState) : List String → WsStubState
  | [] => st
  | m :: ms => send_stub_all (send_ws_message_stub st m).1 ms

/-- The successive values written to `metrics.count_ws_connection_attempts`
by `WSHandler.run_ws_server` (wshandler.py:176-230).  Each list entry
stands for one completed loop iteration in which the connection was built,
`run_forever` eventually returned, and the entry records whether the
session outlived `ws_attempt_window_secs` (wshandler.py:214-215, in which
case `attempt` is reset to 0). -/
def ws_attempt_writes (maxAttempts : Nat) : Nat → List Bool → List Nat
  | _, [] => []
  | attempt, windowExceeded :: rest =>
    if attempt < maxAttempts then
      (attempt + 1) ::
        ws_attempt_writes maxAttempts (if windowExceeded then 0 else attempt + 1) rest
    else []

/-- The four counters held by MetricsHandler (metricshandler.py:40-43). -/
structure Counters where
  count_from_ws : Nat
  count_to_ws : Nat
  count_mq_connection_attempts : Nat
  count_ws_connection_attempts : Nat
deriving DecidableEq, Repr

/-- Every counter update the handlers perform, as written in the source:
`count_from_ws += 1` (wshandler.py:144), `count_to_ws += 1`
(wshandler.py:268), both at once in the stub (wshandler.py:292-293),
`count_mq_connection_attempts = attempts` (mqhandler.py:94), and
`count_ws_connection_attempts = attempt` (wshandler.py:192). -/
inductive MetricEvent where
  | fromWsInc
  | toWsInc
  | stubSend
  | mqAttemptSet (n : Nat)
  | wsAttemptSet (n : Nat)
deriving DecidableEq, Repr

/-- Effect of one counter update on the counters. -/
def applyEvent (c : Counters) : MetricEvent → Counters
  | .fromWsInc => { c with count_from_ws := c.count_from_ws + 1 }
  | .toWsInc => { c with count_to_ws := c.count_to_ws + 1 }
  | .stubSend => { c with count_to_ws := c.count_to_ws + 1,
                          count_from_ws := c.count_from_ws + 1 }
  | .mqAttemptSet n => { c with count_mq_connection_attempts := n }
  | .wsAttemptSet n => { c with count_ws_connection_attempts := n }

/-! Helper lemmas about dictionary lookup. -/

/-- Lookup is invariant under permutation of an item list with distinct
keys (so any iteration order of a Python dict's item set yields the same
mapping). -/
theorem alookup_perm {β : Type} {l₁ l₂ : List (String × β)} (p : l₁.Perm l₂)
    (k : String) : (l₁.map Prod.fst).Nodup → alookup k l₁ = alookup k l₂ := by
  induction p with
  | nil => intro _; rfl
  | cons x p ih =>
    intro nd
    by_cases hx : x.1 = k
    · simp [alookup, hx]
    · simp only [alookup, if_neg hx]
      exact ih (by simpa using (List.nodup_cons.mp (by simpa using nd)).2)
  | swap x y l =>
    intro nd
    have hxy : y.1 ≠ x.1 := by
      have h := nd
      simp [List.nodup_cons] at h
      exact h.1.1
    by_cases h1 : y.1 = k <;> by_cases h2 : x.1 = k <;>
      simp [alookup, h1, h2]
    exact absurd (h1.trans h2.symm) hxy
  | trans p₁ p₂ ih₁ ih₂ =>
    intro nd
    exact (ih₁ nd).trans (ih₂ ((p₁.map Prod.fst).nodup nd))

/-- A key found in the left part of an append is found in the append. -/
theorem alookup_append_left {β : Type} {l₁ : List (String × β)} (l₂ : List (String × β))
    {k : String} {v : β} (h : alookup k l₁ = some v) : alookup k (l₁ ++ l₂) = some v := by
  induction l₁ with
  | nil => exact absurd h (by simp [alookup])
  | cons kv rest ih =>
    by_cases hk : kv.1 = k
    · simpa [alookup, hk] using (by simpa [alookup, hk] using h : kv.2 = v)
    · simp only [alookup, if_neg hk, List.cons_append] at h ⊢
      exact ih h

/-- A key absent from the left part of an append is looked up in the right
part. -/
theorem alookup_append_right {β : Type} {l₁ : List (String × β)}
    (l₂ : List (String × β)) {k : String} (h : alookup k l₁ = none) :
    alookup k (l₁ ++ l₂) = alookup k l₂ := by
  induction l₁ with
  | nil => rfl
  | cons kv rest ih =>
    by_cases hk : kv.1 = k
    · simp [alookup, hk] at h
    · simp only [alookup, if_neg hk, List.cons_append] at h ⊢
      exact ih h

/-- C10: when the MQ consume callback runs with the channel reference unset
or falsy, it returns false and performs no broker operation on the message
(neither ack nor reject), whereas the channel-set not-running case rejects
with requeue.  (mqhandler.py:171-178) -/
theorem claim_C10 (running : Bool) (forward : String → Bool) (body : String) :
    mq_call false running forward body = (false, MqAction.nothing) ∧
    mq_call true false forward body = (false, MqAction.reject true) :=
  ⟨rfl, rfl⟩

/-- C1 counterexample: at the concrete input where the channel reference is
falsy and the handler is not running, the callback returns false but does
NOT reject the message, contradicting the claim that every
not-running delivery is rejected with requeue. -/
theorem claim_C1_counterexample :
    mq_call false false (fun _ => true) "m" = (false, MqAction.nothing) ∧
    MqAction.nothing ≠ MqAction.reject true :=
  ⟨rfl, by decide⟩

/-- C1 (amended): provided the channel reference is set, the MQ consume
callback rejects with requeue and returns false when the handler is not
running; otherwise it invokes the forward callback on the body and acks
exactly once on success or rejects with requeue on failure, returning the
forward result.  (mqhandler.py:163-186) -/
theorem claim_C1 (running : Bool) (forward : String → Bool) (body : String) :
    (running = false → mq_call true running forward body = (false, .reject true)) ∧
    (running = true →
      mq_call true running forward body =
        (forward body, if forward body = true then MqAction.ack else MqAction.reject true)) := by
  constructor
  · intro h; subst h; rfl
  · intro h; subst h
    by_cases hf : forward body = true <;> simp [mq_call, hf]

/-- C1 witness: the amended theorem applied at concrete inputs. -/
theorem claim_C1_witness :
    mq_call true false (fun _ => true) "m" = (false, MqAction.reject true) ∧
    mq_call true true (fun _ => false) "m" = (false, MqAction.reject true) ∧
    mq_call true true (fun _ => true) "m" = (true, MqAction.ack) := by
  refine ⟨(claim_C1 false (fun _ => true) "m").1 rfl, ?_, ?_⟩
  · have h := (claim_C1 true (fun _ => false) "m").2 rfl
    simpa using h
  · have h := (claim_C1 true (fun _ => true) "m").2 rfl
    simpa using h

/-- C2: evaluation at the failing input.  After `on_close(None, None)` the
failure flag holds the reason string, yet the 60-iteration startup poll
leaves the state completely unchanged: `server_running` stays true,
`successful_start` stays 0, the sleeper is not set.  The poll's guard is
`ws_failed is True` (mq2wsbridge.py:310), an identity test against the
True singleton that no string can satisfy, so the abort branch is dead
code and the claimed shutdown trip never happens. -/
theorem claim_C2_code_bug :
    on_close ⟨true, true, true, .pyNone, true, false, 0⟩ none none =
      ⟨true, true, false, .pyStr onCloseFailReason, true, false, 0⟩ ∧
    startup_poll 60 ⟨true, true, false, .pyStr onCloseFailReason, true, false, 0⟩ =
      ⟨true, true, false, .pyStr onCloseFailReason, true, false, 0⟩ := by
  constructor
  · rfl
  · decide

/-- C3 counterexample: with the default `ttl_from_ws = 300`
(mqhandler.py:68-71), the expiration property the publish path builds is
the string "300", not `str(300 * 1000) = "300000"` as claimed. -/
theorem claim_C3_counterexample :
    alookup "expiration" (message_properties 300) = some "300" ∧
    (some "300" : Option String) ≠ some (toString (300 * 1000)) := by
  constructor
  · rfl
  · decide

/-- C3 (amended): every message built by `MQHandler.send_message` carries
content-type "text/plain" and an expiration property equal to the decimal
string of `ttl_from_ws` itself - the configured TTL without any
conversion to milliseconds.  (mqhandler.py:132-136) -/
theorem claim_C3 (ttl_from_ws : Nat) :
    alookup "content_type" (message_properties ttl_from_ws) = some "text/plain" ∧
    alookup "expiration" (message_properties ttl_from_ws) = some (toString ttl_from_ws) := by
  constructor
  · rfl
  · simp [message_properties, alookup]

/-- The backoff sleeps of a connect run are exactly `min((a+k+1)*2, 30)` for
the k-th sleep when the attempt counter starts at `a`: sleeps happen on
consecutive failed attempts, attempt numbers counted from `a + 1`. -/
theorem create_connection_go_sleeps (maxRetries : Nat) (outcomes : List Bool) :
    ∀ a : Nat,
      (create_connection_go maxRetries a outcomes).sleeps =
        (List.range (create_connection_go maxRetries a outcomes).sleeps.length).map
          (fun k => min ((a + k + 1) * 2) 30) := by
  induction outcomes with
  | nil => intro a; simp [create_connection_go]
  | cons o rest ih =>
    intro a
    by_cases ho : o
    · simp [create_connection_go, ho]
    · by_cases hex : maxRetries ≠ 0 ∧ a + 1 > maxRetries
      · simp [create_connection_go, ho, hex]
      · simp only [create_connection_go, Bool.false_eq_true, if_neg ho, if_neg hex]
        simp only [List.length_cons, List.range_succ_eq_map, List.map_cons, List.map_map]
        congr 1
        rw [ih (a + 1)]
        simp only [List.length_map, List.length_range]
        apply List.map_congr_left
        intro k _
        simp only [Function.comp]
        congr 1
        omega

/-- C5: in every `create_connection` run, the k-th backoff sleep (performed
after the failed attempt number k+1, attempts counted from 1) lasts
`min((k+1)*2, 30)` seconds, and no backoff sleep ever exceeds 30 seconds.
(mqhandler.py:83-110, the `time.sleep(min(attempts * 2, 30))` call) -/
theorem claim_C5 (maxRetries : Nat) (outcomes : List Bool) :
    (create_connection maxRetries outcomes).sleeps =
      (List.range (create_connection maxRetries outcomes).sleeps.length).map
        (fun k => min ((k + 1) * 2) 30) ∧
    ∀ s ∈ (create_connection maxRetries outcomes).sleeps, s ≤ 30 := by
  have h := create_connection_go_sleeps maxRetries outcomes 0
  constructor
  · simpa [create_connection] using h
  · intro s hs
    rw [create_connection] at hs
    rw [h] at hs
    simp only [List.mem_map, List.mem_range] at hs
    obtain ⟨k, _, hk⟩ := hs
    omega

/-- C5 witness: five consecutive connect failures with `max_retries = 5`
sleep 2, 4, 6, 8, 10 seconds, and the theorem bounds the sleep 10 by 30. -/
theorem claim_C5_witness :
    (create_connection 5 [false, false, false, false, false, false]).sleeps =
      [2, 4, 6, 8, 10] ∧
    10 ∈ (create_connection 5 [false, false, false, false, false, false]).sleeps ∧
    10 ≤ 30 := by
  refine ⟨by decide, by decide, ?_⟩
  exact (claim_C5 5 [false, false, false, false, false, false]).2 10 (by decide)

/-- Characterization of the publish retry loop `send_go` at any fuel `r`
and try index `i`: at most `r` tries happen; each failed try sleeps once;
a true result means the last try performed succeeded; a false result means
every try performed failed; when the handler flags are bad (no consumer
tags or not running) and `r ≤ m`, the loop aborts at the first check that
has `retry_count < max_retries`, so at most one try happens; and the first
iteration of a top-level call never aborts. -/
theorem send_go_spec (tagsOk running : Bool) (m : Nat) (tries : Nat → Bool) :
    ∀ r i res t s, send_go tagsOk running m tries r i = (res, t, s) →
      t ≤ r ∧
      s = t - (if res = true then 1 else 0) ∧
      (res = true → 1 ≤ t ∧ tries (i + t - 1) = true) ∧
      (res = false → ∀ j, j < t → tries (i + j) = false) ∧
      ((tagsOk = false ∨ running = false) → r ≤ m → (r < m → t = 0) ∧ t ≤ 1) ∧
      (¬(r < m) → 1 ≤ r → 1 ≤ t) := by
  intro r
  induction r with
  | zero =>
    intro i res t s h
    simp only [send_go, Prod.mk.injEq] at h
    obtain ⟨rfl, rfl, rfl⟩ := h
    exact ⟨Nat.le_refl 0, by simp, by simp, fun _ j hj => absurd hj (by omega),
           fun _ _ => ⟨fun _ => rfl, by omega⟩, fun _ h1 => absurd h1 (by omega)⟩
  | succ r ih =>
    intro i res t s h
    by_cases habort : (tagsOk = false ∨ running = false) ∧ r + 1 < m
    · simp only [send_go, if_pos habort, Prod.mk.injEq] at h
      obtain ⟨rfl, rfl, rfl⟩ := h
      exact ⟨by omega, by simp, by simp, fun _ j hj => absurd hj (by omega),
             fun _ _ => ⟨fun _ => rfl, by omega⟩, fun hnl _ => absurd habort.2 hnl⟩
    · by_cases htry : tries i = true
      · simp only [send_go, if_neg habort, if_pos htry, Prod.mk.injEq] at h
        obtain ⟨rfl, rfl, rfl⟩ := h
        refine ⟨by omega, by simp, fun _ => ⟨by omega, by simpa using htry⟩,
                by simp, ?_, fun _ _ => by omega⟩
        intro hf _
        exact ⟨fun hlt => absurd ⟨hf, hlt⟩ habort, by omega⟩
      · rcases hrec : send_go tagsOk running m tries r (i + 1) with ⟨res', t', s'⟩
        simp only [send_go, if_neg habort, if_neg htry, hrec, Prod.mk.injEq] at h
        obtain ⟨rfl, rfl, rfl⟩ := h
        obtain ⟨iht, ihs, ihT, ihF, ihFl, _⟩ := ih (i + 1) res' t' s' hrec
        refine ⟨by omega, ?_, ?_, ?_, ?_, fun _ _ => by omega⟩
        · cases res' with
          | true =>
            have h1 := (ihT rfl).1
            simp at ihs ⊢
            omega
          | false =>
            simp at ihs ⊢
            omega
        · intro hres
          have h1 := ihT hres
          refine ⟨by omega, ?_⟩
          have he : i + (t' + 1) - 1 = i + 1 + t' - 1 := by omega
          rw [he]
          exact h1.2
        · intro hres j hj
          cases j with
          | zero => simpa using htry
          | succ j' =>
            have hjf := ihF hres j' (by omega)
            have he : i + (j' + 1) = i + 1 + j' := by omega
            rw [he]
            exact hjf
        · intro hf hrm
          have hnm : ¬(r + 1 < m) := fun hlt => habort ⟨hf, hlt⟩
          have hrm' : r < m := by omega
          have ht0 := (ihFl hf (by omega)).1 hrm'
          exact ⟨fun hlt => absurd hlt hnm, by omega⟩

/-- C6 counterexample: with `mq_running = False` from the start (consumer
tags present) and a first publish try that succeeds, `send_message`
publishes and returns True - it does not abort and return False as the
claim requires, because the abort check (mqhandler.py:142) also demands
`retry_count < self.max_retries`, which is false on the first iteration. -/
theorem claim_C6_counterexample :
    send_message true false 5 (fun _ => true) = (true, 1, 0) ∧
    (true, 1, 0) ≠ ((false : Bool), 1, 0) := by
  constructor
  · rfl
  · simp

/-- C6 (amended): `send_message` attempts the publish at most `max_retries`
times, sleeps 1 second after each failed try, and returns true exactly
when one of the performed tries succeeds.  When the handler is not running
(or the channel has no consumer tags), the abort check fires only from the
second iteration on - after at least one failed try - so at most one
publish try is performed, and with at least one retry configured the
result is exactly the outcome of that first try.  (mqhandler.py:140-161) -/
theorem claim_C6 (tagsOk running : Bool) (m : Nat) (tries : Nat → Bool)
    (res : Bool) (t s : Nat) (h : send_message tagsOk running m tries = (res, t, s)) :
    t ≤ m ∧
    s = t - (if res = true then 1 else 0) ∧
    (res = true ↔ ∃ j, j < t ∧ tries j = true) ∧
    ((tagsOk = false ∨ running = false) → t ≤ 1) ∧
    ((tagsOk = false ∨ running = false) → 1 ≤ m → res = tries 0) := by
  rw [send_message] at h
  obtain ⟨iht, ihs, ihT, ihF, ihFl, ihPos⟩ :=
    send_go_spec tagsOk running m tries m 0 res t s h
  refine ⟨iht, ihs, ?_, fun hf => (ihFl hf (Nat.le_refl m)).2, ?_⟩
  · constructor
    · intro hres
      obtain ⟨h1, h2⟩ := ihT hres
      exact ⟨t - 1, by omega, by simpa using h2⟩
    · intro ⟨j, hj, htj⟩
      cases res with
      | true => rfl
      | false =>
        have := ihF rfl j hj
        simp at this
        rw [htj] at this
        exact absurd this (by simp)
  · intro hf hm
    have ht1 := (ihFl hf (Nat.le_refl m)).2
    have htpos := ihPos (by omega) hm
    have ht : t = 1 := by omega
    cases res with
    | true =>
      have h2 := (ihT rfl).2
      rw [ht] at h2
      simpa using h2.symm
    | false =>
      have h2 := ihF rfl 0 (by omega)
      simpa using h2.symm

/-- C6 witness: the amended theorem applied at a concrete run where the
third try succeeds: three tries happen (at most the five configured), two
sleeps, and the result is true because try 2 succeeds. -/
theorem claim_C6_witness :
    send_message true true 5 (fun i => decide (i = 2)) = (true, 3, 2) ∧
    (3 : Nat) ≤ 5 ∧ (2 : Nat) = 3 - 1 := by
  refine ⟨by decide, ?_, ?_⟩
  · exact (claim_C6 true true 5 (fun i => decide (i = 2)) true 3 2 (by decide)).1
  · have h := (claim_C6 true true 5 (fun i => decide (i = 2)) true 3 2 (by decide)).2.1
    exact h

/-- C7 counterexample: a concrete `run_ws_server` trace in which three
short-lived sessions are followed by one whose duration exceeds the
attempt window.  The window check resets `attempt` to 0
(wshandler.py:214-215), so the next iteration writes 1 into
`count_ws_connection_attempts` after 3 was written before: the fourth
update lowers the counter from 3 to 1, refuting monotonic non-decrease of
the ws-connect-attempts counter. -/
theorem claim_C7_counterexample :
    ws_attempt_writes 10 0 [false, false, true, false] = [1, 2, 3, 1] ∧
    (((ws_attempt_writes 10 0 [false, false, true, false]).take 3).map
        MetricEvent.wsAttemptSet).foldl applyEvent ⟨0, 0, 0, 0⟩ =
      { count_from_ws := 0, count_to_ws := 0, count_mq_connection_attempts := 0,
        count_ws_connection_attempts := 3 } ∧
    ((ws_attempt_writes 10 0 [false, false, true, false]).map
        MetricEvent.wsAttemptSet).foldl applyEvent ⟨0, 0, 0, 0⟩ =
      { count_from_ws := 0, count_to_ws := 0, count_mq_connection_attempts := 0,
        count_ws_connection_attempts := 1 } ∧
    (1 : Nat) < 3 := by
  refine ⟨?_, ?_, ?_, by omega⟩ <;> decide

/-- C7 (amended): the frames-to-WS and frames-from-WS counters never
decrease - every update the handlers perform on them is an increment -
while the two connection-attempt counters are plain assignments of the
current attempt number, which can decrease when the attempt count restarts
(window reset in run_ws_server, or a fresh create_connection call). -/
theorem claim_C7 (c : Counters) (e : MetricEvent) :
    c.count_from_ws ≤ (applyEvent c e).count_from_ws ∧
    c.count_to_ws ≤ (applyEvent c e).count_to_ws ∧
    (∀ n, (applyEvent c (.mqAttemptSet n)).count_mq_connection_attempts = n ∧
          (applyEvent c (.wsAttemptSet n)).count_ws_connection_attempts = n) := by
  refine ⟨?_, ?_, fun n => ⟨rfl, rfl⟩⟩ <;> cases e <;> simp [applyEvent]

/-- Sending a frame through the stub does not change its flags. -/
theorem send_stub_flags (st : WsStubState) (m : String) :
    (send_ws_message_stub st m).1.ws_connected = st.ws_connected ∧
    (send_ws_message_stub st m).1.ws_running = st.ws_running := by
  by_cases h : st.ws_connected = true ∧ st.ws_running = true <;>
    by_cases hm : st.metrics_enabled <;>
      simp [send_ws_message_stub, h, hm]

/-- C9: with the stub handler connected and running (and the module
constant STUB_SEND_DELAY = 0 so the send is synchronous), each stub send
appends exactly one invocation of `on_message_handler` with the sent frame
and returns true, and a whole sequence S of sends delivers exactly S in
order.  (wshandler.py:279-295) -/
theorem claim_C9 (st : WsStubState) (S : List String)
    (hc : st.ws_connected = true) (hr : st.ws_running = true) :
    STUB_SEND_DELAY = 0 ∧
    (send_stub_all st S).delivered = st.delivered ++ S ∧
    (∀ m, (send_ws_message_stub st m).1.delivered = st.delivered ++ [m] ∧
          (send_ws_message_stub st m).2 = true) := by
  have single : ∀ (u : WsStubState), u.ws_connected = true → u.ws_running = true →
      ∀ m, (send_ws_message_stub u m).1.delivered = u.delivered ++ [m] ∧
           (send_ws_message_stub u m).2 = true := by
    intro u huc hur m
    by_cases hm : u.metrics_enabled <;> simp [send_ws_message_stub, huc, hur, hm]
  refine ⟨rfl, ?_, single st hc hr⟩
  induction S generalizing st with
  | nil => simp [send_stub_all]
  | cons m ms ih =>
    have hflags := send_stub_flags st m
    have hone := single st hc hr m
    simp only [send_stub_all]
    rw [ih (send_ws_message_stub st m).1 (hflags.1.trans hc) (hflags.2.trans hr),
        hone.1]
    simp

/-- C9 witness: the theorem applied to a concrete start state and the
two-frame sequence ["a", "b"]. -/
theorem claim_C9_witness :
    (send_stub_all ⟨true, true, true, 0, 0, []⟩ ["a", "b"]).delivered = ["a", "b"] := by
  have h := (claim_C9 ⟨true, true, true, 0, 0, []⟩ ["a", "b"] rfl rfl).2.1
  simpa using h

/-- C8: in every payload dict generated by `generate_payload` - any
iteration order `uPay` of the union of the literal claims dict with the
extra params, where for WebSocket URLs the extra params are any iteration
order `uWs` of the union of `{'connection_expiry': now + 300}` with the
caller's `jwt_params`, all with distinct keys - the claims satisfy
exp = now + 300, nbf = now - 60, iat = now - 60, iss = kid = client_id =
key id, region = "ny", and connection_expiry = now + 300 is present.
(wshandler.py:66-75 and 98-114) -/
theorem claim_C8 (key_id path uri method nonce : String) (now : Int)
    (jwt_params uWs uPay : List (String × JVal))
    (hWs : uWs.Perm (websocketJwtParams now ++ jwt_params))
    (hPay : uPay.Perm (payloadClaims key_id path uri method now nonce ++ uWs))
    (nd : (uPay.map Prod.fst).Nodup) :
    alookup "exp" uPay = some (.jint (now + 300)) ∧
    alookup "nbf" uPay = some (.jint (now - 60)) ∧
    alookup "iat" uPay = some (.jint (now - 60)) ∧
    alookup "iss" uPay = some (.jstr key_id) ∧
    alookup "kid" uPay = some (.jstr key_id) ∧
    alookup "client_id" uPay = some (.jstr key_id) ∧
    alookup "region" uPay = some (.jstr "ny") ∧
    alookup "connection_expiry" uPay = some (.jint (now + 300)) := by
  have hP : ∀ k, alookup k uPay =
      alookup k (payloadClaims key_id path uri method now nonce ++ uWs) :=
    fun k => alookup_perm hPay k nd
  have ndc : ((payloadClaims key_id path uri method now nonce ++ uWs).map Prod.fst).Nodup :=
    (hPay.map Prod.fst).nodup nd
  have ndWs : (uWs.map Prod.fst).Nodup := by
    rw [List.map_append] at ndc
    exact ndc.of_append_right
  refine ⟨?_, ?_, ?_, ?_, ?_, ?_, ?_, ?_⟩
  · rw [hP]; exact alookup_append_left uWs (by simp [payloadClaims, alookup])
  · rw [hP]; exact alookup_append_left uWs (by simp [payloadClaims, alookup])
  · rw [hP]; exact alookup_append_left uWs (by simp [payloadClaims, alookup])
  · rw [hP]; exact alookup_append_left uWs (by simp [payloadClaims, alookup])
  · rw [hP]; exact alookup_append_left uWs (by simp [payloadClaims, alookup])
  · rw [hP]; exact alookup_append_left uWs (by simp [payloadClaims, alookup])
  · rw [hP]; exact alookup_append_left uWs (by simp [payloadClaims, alookup])
  · rw [hP]
    rw [alookup_append_right uWs (by simp [payloadClaims, alookup])]
    rw [alookup_perm hWs "connection_expiry" ndWs]
    simp [websocketJwtParams, alookup]

/-- C8 witness: the theorem applied at the spec's Scenario E values with
empty extra params and the canonical item orders. -/
theorem claim_C8_witness :
    alookup "connection_expiry"
      (payloadClaims "cid" "/x" "wss://h" "GET" 1700000000
          "00000000-0000-0000-0000-000000000000" ++
        (websocketJwtParams 1700000000 ++ [])) =
      some (.jint (1700000000 + 300)) ∧
    alookup "exp"
      (payloadClaims "cid" "/x" "wss://h" "GET" 1700000000
          "00000000-0000-0000-0000-000000000000" ++
        (websocketJwtParams 1700000000 ++ [])) =
      some (.jint (1700000000 + 300)) := by
  have h := claim_C8 "cid" "/x" "wss://h" "GET"
    "00000000-0000-0000-0000-000000000000" 1700000000 []
    (websocketJwtParams 1700000000 ++ [])
    (payloadClaims "cid" "/x" "wss://h" "GET" 1700000000
        "00000000-0000-0000-0000-000000000000" ++
      (websocketJwtParams 1700000000 ++ []))
    (List.Perm.refl _) (List.Perm.refl _) (by decide)
  exact ⟨h.2.2.2.2.2.2.2, h.1⟩

/-- C4 counterexample: the payload item set of `generate_payload` at the
spec's Scenario E inputs admits (at least) two iteration orders - Python
fixes one per process via the string hash seed, randomized between
processes - and the two orders serialize to different payload bytes.  So
two runs of generate_jwt with identical inputs and the same (now, nonce)
need not emit byte-identical payloads; only the key order differs, but
byte-identity fails. -/
theorem claim_C4_counterexample :
    (payloadClaims "cid" "/x" "wss://h" "GET" 1700000000
        "00000000-0000-0000-0000-000000000000").reverse.Perm
      (payloadClaims "cid" "/x" "wss://h" "GET" 1700000000
          "00000000-0000-0000-0000-000000000000" ++ []) ∧
    generate_payload
        (payloadClaims "cid" "/x" "wss://h" "GET" 1700000000
          "00000000-0000-0000-0000-000000000000").reverse ≠
      generate_payload
        (payloadClaims "cid" "/x" "wss://h" "GET" 1700000000
          "00000000-0000-0000-0000-000000000000") := by
  constructor
  · simp only [List.append_nil]
    exact List.reverse_perm (payloadClaims "cid" "/x" "wss://h" "GET" 1700000000
      "00000000-0000-0000-0000-000000000000")
  · decide

/-- C4 (amended): JWT construction is deterministic given `(now, nonce)`
AND the dict item iteration order.  Two invocations of generate_jwt whose
inputs, `now`, `nonce`, and header/payload item orders coincide (as holds
for any two invocations within one Python process, where the hash seed
fixing the set iteration order is constant) emit byte-identical header,
payload and signature strings.  Across processes the order - and the bytes
with it - may differ, see the counterexample. -/
theorem claim_C4 (key_id path uri method : String) (ks₁ ks₂ : List Nat)
    (now₁ now₂ : Int) (nonce₁ nonce₂ : String)
    (uH₁ uH₂ uP₁ uP₂ : List (String × JVal))
    (_hP₁ : uP₁.Perm (payloadClaims key_id path uri method now₁ nonce₁))
    (_hP₂ : uP₂.Perm (payloadClaims key_id path uri method now₂ nonce₂))
    (hks : ks₁ = ks₂) (_hnow : now₁ = now₂) (_hnonce : nonce₁ = nonce₂)
    (hH : uH₁ = uH₂) (hP : uP₁ = uP₂) :
    generate_header uH₁ = generate_header uH₂ ∧
    generate_payload uP₁ = generate_payload uP₂ ∧
    generate_jwt ks₁ uH₁ uP₁ = generate_jwt ks₂ uH₂ uP₂ := by
  subst hks
  subst hH
  subst hP
  exact ⟨rfl, rfl, rfl⟩

/-- C4 witness: the amended theorem applied at the spec's Scenario E
values (client id "cid", secret bytes of "00ff", path "/x", host
"wss://h", now = 1700000000, the all-zero nonce) with the source-literal
item orders. -/
theorem claim_C4_witness :
    generate_jwt (unhexlify "00ff") jwtHeaderItems
        (payloadClaims "cid" "/x" "wss://h" "GET" 1700000000
          "00000000-0000-0000-0000-000000000000") =
      generate_jwt (unhexlify "00ff") jwtHeaderItems
        (payloadClaims "cid" "/x" "wss://h" "GET" 1700000000
          "00000000-0000-0000-0000-000000000000") :=
  (claim_C4 "cid" "/x" "wss://h" "GET" (unhexlify "00ff") (unhexlify "00ff")
    1700000000 1700000000 "00000000-0000-0000-0000-000000000000"
    "00000000-0000-0000-0000-000000000000" jwtHeaderItems jwtHeaderItems
    (payloadClaims "cid" "/x" "wss://h" "GET" 1700000000
      "00000000-0000-0000-0000-000000000000")
    (payloadClaims "cid" "/x" "wss://h" "GET" 1700000000
      "00000000-0000-0000-0000-000000000000")
    (List.Perm.refl _) (List.Perm.refl _) rfl rfl rfl rfl rfl).2.2
